import Mathlib

/-!
Verification of the Eco-Weather-Dashboard pipeline (src/helpers.py, src/services.py,
src/app.py) against its specification.

Modelling conventions:
* Python floats are modelled by `ℚ`; a possibly-absent / possibly-NaN AQI input is
  modelled by the three-way type `AqiInput` (`none` for Python `None`, `nan` for a
  float NaN, `val q` for an ordinary numeric value).
* Python `None` for other optional values is `Option`.
* A JSON array field that may be missing from a dict is `Option (List _)`; a dict
  `get` with default `[]` or `{}` is `Option.getD`.
* The spreadsheet file is modelled by `Option (List α)`: `none` when the file is
  absent, `some rows` for a file holding `rows` in order (a row is kept abstract,
  carrying its own column layout).
-/

/-- The AQI argument of the Python functions: `None`, a float NaN, or a number. -/
inductive AqiInput : Type
  | none : AqiInput
  | nan : AqiInput
  | val : ℚ → AqiInput
deriving DecidableEq, Repr

/-- Embeds `helpers.explain_us_aqi` (src/helpers.py lines 7-23): human-friendly
description for the US AQI scale.  The `None`/NaN guard is the two non-numeric
constructors of `AqiInput`. -/
def explain_us_aqi (aqi : AqiInput) : String :=
  match aqi with
  | .none => "AQI data not available."
  | .nan => "AQI data not available."
  | .val q =>
    if q ≤ 50 then "Good – Air quality is considered satisfactory."
    else if q ≤ 100 then "Moderate – Acceptable; some pollutants may affect very sensitive people."
    else if q ≤ 150 then "Unhealthy for Sensitive Groups – Sensitive people should reduce outdoor exertion."
    else if q ≤ 200 then "Unhealthy – Everyone may begin to feel adverse health effects."
    else if q ≤ 300 then "Very Unhealthy – Health alert; serious effects for everyone."
    else "Hazardous – Emergency conditions; avoid going outside."

/-- Embeds `helpers.aqi_emoji` (src/helpers.py lines 26-42): color emoji indicator
for the AQI level, with the same guards and bounds as `explain_us_aqi`. -/
def aqi_emoji (aqi : AqiInput) : String :=
  match aqi with
  | .none => "⚪"
  | .nan => "⚪"
  | .val q =>
    if q ≤ 50 then "🟢"
    else if q ≤ 100 then "🟡"
    else if q ≤ 150 then "🟠"
    else if q ≤ 200 then "🔴"
    else if q ≤ 300 then "🟣"
    else "⚫"

/-- The seven severity tiers of the `classifyAqi` function of the spec. -/
inductive Tier : Type
  | good | moderate | usg | unhealthy | veryUnhealthy | hazardous | unknown
deriving DecidableEq, Repr

/-- Spec-side tier table (spec §4.2 `classifyAqi`): inclusive upper bounds
≤50 Good, ≤100 Moderate, ≤150 Unhealthy-for-Sensitive-Groups, ≤200 Unhealthy,
≤300 Very-Unhealthy, >300 Hazardous; absent/NaN input is the Unknown tier. -/
def classifyAqi : AqiInput → Tier
  | .none => .unknown
  | .nan => .unknown
  | .val q =>
    if q ≤ 50 then .good
    else if q ≤ 100 then .moderate
    else if q ≤ 150 then .usg
    else if q ≤ 200 then .unhealthy
    else if q ≤ 300 then .veryUnhealthy
    else .hazardous

/-- The fixed description string of each tier. -/
def tierDescription : Tier → String
  | .good => "Good – Air quality is considered satisfactory."
  | .moderate => "Moderate – Acceptable; some pollutants may affect very sensitive people."
  | .usg => "Unhealthy for Sensitive Groups – Sensitive people should reduce outdoor exertion."
  | .unhealthy => "Unhealthy – Everyone may begin to feel adverse health effects."
  | .veryUnhealthy => "Very Unhealthy – Health alert; serious effects for everyone."
  | .hazardous => "Hazardous – Emergency conditions; avoid going outside."
  | .unknown => "AQI data not available."

/-- The fixed badge emoji of each tier. -/
def tierBadge : Tier → String
  | .good => "🟢"
  | .moderate => "🟡"
  | .usg => "🟠"
  | .unhealthy => "🔴"
  | .veryUnhealthy => "🟣"
  | .hazardous => "⚫"
  | .unknown => "⚪"

/-- C1: for every AQI input the description and the badge functions realise the
tier table `classifyAqi` with its inclusive bounds, and hence land in the same
tier for every input; boundary inputs 50, 100, 150, 200, 300 fall in the lower
tier. -/
theorem explain_and_emoji_follow_tier_table (v : AqiInput) :
    explain_us_aqi v = tierDescription (classifyAqi v) ∧
    aqi_emoji v = tierBadge (classifyAqi v) ∧
    classifyAqi (.val 50) = .good ∧
    classifyAqi (.val 100) = .moderate ∧
    classifyAqi (.val 150) = .usg ∧
    classifyAqi (.val 200) = .unhealthy ∧
    classifyAqi (.val 300) = .veryUnhealthy ∧
    classifyAqi (.val 301) = .hazardous ∧
    classifyAqi .none = .unknown ∧
    classifyAqi .nan = .unknown := by
  refine ⟨?_, ?_, by decide, by decide, by decide, by decide, by decide, by decide, rfl, rfl⟩
  · cases v with
    | none => rfl
    | nan => rfl
    | val q => simp only [explain_us_aqi, classifyAqi]; split_ifs <;> rfl
  · cases v with
    | none => rfl
    | nan => rfl
    | val q => simp only [aqi_emoji, classifyAqi]; split_ifs <;> rfl

/-! ## TipEngine: `helpers.eco_tips` (src/helpers.py lines 45-84)

The source accumulates tips into one list in four independent category blocks,
in this textual order: temperature, weather code, AQI, wind.  Each block is a
chain of mutually exclusive conditions appending its tips; the blocks are
embedded one function per category, and `eco_tips` is their concatenation
followed by the empty-list fallback check. -/

def comfortableTip : String :=
  "🌡️ Comfortable temperature – use fans/natural airflow instead of AC to save energy."

def hotTip : String :=
  "🥵 It’s hot – close curtains during the day & use light cotton clothes before lowering AC too much."

def coolTip : String :=
  "🥶 It’s cool – wear extra layers instead of relying only on room heaters."

def clearSkyTip : String :=
  "☀️ Clear sky – perfect to dry clothes outside instead of using a dryer."

def daylightTip : String :=
  "🔆 Use natural daylight instead of switching on lights."

def cloudyTip : String :=
  "☁️ Cloudy – still enough daylight; keep unnecessary lights switched off."

def rainTip : String :=
  "🌧️ Rainy – collect some rainwater (where safe) for plants or cleaning."

def wintryTip : String :=
  "❄️ Cold/wintry – ensure windows/doors are sealed to avoid heat loss."

def avoidVehiclesTip : String :=
  "🚗 AQI is high – avoid using private vehicles; prefer public transport or carpooling."

def wearMaskTip : String :=
  "😷 Consider wearing a mask and avoid heavy outdoor exercise."

def walkCycleTip : String :=
  "🚶 AQI is good – great time to walk or cycle instead of using a vehicle."

def windyTip : String :=
  "💨 Windy outside – open windows for natural ventilation instead of running a fan all day."

def fallbackTip : String :=
  "✅ No special alerts – follow 3Rs: Reduce, Reuse, Recycle. ♻️"

/-- Temperature block of `eco_tips` (lines 50-55): `18 <= temp_c <= 28`,
`temp_c > 30`, `temp_c < 15`. -/
def tempTips (temp_c : ℚ) : List String :=
  if 18 ≤ temp_c ∧ temp_c ≤ 28 then [comfortableTip]
  else if temp_c > 30 then [hotTip]
  else if temp_c < 15 then [coolTip]
  else []

/-- Weather-code block of `eco_tips` (lines 58-66): codes {0,1} give two tips,
{2,3} one, [51,67] ∪ [80,82] the rain tip, [71,77] ∪ [85,86] the wintry tip. -/
def weatherTips (weather_code : ℤ) : List String :=
  if weather_code = 0 ∨ weather_code = 1 then [clearSkyTip, daylightTip]
  else if weather_code = 2 ∨ weather_code = 3 then [cloudyTip]
  else if (51 ≤ weather_code ∧ weather_code ≤ 67) ∨ (80 ≤ weather_code ∧ weather_code ≤ 82) then
    [rainTip]
  else if (71 ≤ weather_code ∧ weather_code ≤ 77) ∨ (85 ≤ weather_code ∧ weather_code ≤ 86) then
    [wintryTip]
  else []

/-- AQI block of `eco_tips` (lines 69-75): guarded on non-`None`, non-NaN;
`aqi > 150` gives two tips, `aqi <= 50` one. -/
def aqiTips (aqi : AqiInput) : List String :=
  match aqi with
  | .none => []
  | .nan => []
  | .val q =>
    if q > 150 then [avoidVehiclesTip, wearMaskTip]
    else if q ≤ 50 then [walkCycleTip]
    else []

/-- Wind block of `eco_tips` (lines 78-79): `wind_speed is not None and wind_speed > 6`. -/
def windTips (wind_speed : Option ℚ) : List String :=
  match wind_speed with
  | Option.none => []
  | some w => if w > 6 then [windyTip] else []

/-- Embeds `helpers.eco_tips` (src/helpers.py lines 45-84): the four category
blocks accumulate in source order, then the fallback tip replaces an empty
result (lines 81-82). -/
def eco_tips (temp_c : ℚ) (weather_code : ℤ) (aqi : AqiInput) (wind_speed : Option ℚ) :
    List String :=
  let tips := tempTips temp_c ++ weatherTips weather_code ++ aqiTips aqi ++ windTips wind_speed
  if tips = [] then [fallbackTip] else tips

/-- C2: `eco_tips` always returns a non-empty list, and when none of the
category rules fires (all the guard conditions of the source are false) it returns
exactly the single fallback tip. -/
theorem eco_tips_nonempty_and_fallback (temp_c : ℚ) (weather_code : ℤ)
    (aqi : AqiInput) (wind_speed : Option ℚ) :
    eco_tips temp_c weather_code aqi wind_speed ≠ [] ∧
    ((¬ (18 ≤ temp_c ∧ temp_c ≤ 28)) → (¬ temp_c > 30) → (¬ temp_c < 15) →
      (¬ (weather_code = 0 ∨ weather_code = 1)) →
      (¬ (weather_code = 2 ∨ weather_code = 3)) →
      (¬ ((51 ≤ weather_code ∧ weather_code ≤ 67) ∨
          (80 ≤ weather_code ∧ weather_code ≤ 82))) →
      (¬ ((71 ≤ weather_code ∧ weather_code ≤ 77) ∨
          (85 ≤ weather_code ∧ weather_code ≤ 86))) →
      (∀ q, aqi = .val q → ¬ q > 150 ∧ q > 50) →
      (∀ w, wind_speed = some w → ¬ w > 6) →
      eco_tips temp_c weather_code aqi wind_speed = [fallbackTip]) := by
  constructor
  · simp only [eco_tips]
    split
    · simp
    · assumption
  · intro h1 h2 h3 h4 h5 h6 h7 h8 h9
    have ht : tempTips temp_c = [] := by
      simp [tempTips, h1, h2, h3]
    have hw : weatherTips weather_code = [] := by
      simp [weatherTips, h4, h5, h6, h7]
    have ha : aqiTips aqi = [] := by
      cases aqi with
      | none => rfl
      | nan => rfl
      | val q =>
        obtain ⟨hq1, hq2⟩ := h8 q rfl
        have hq3 : ¬ q ≤ 50 := not_le.mpr hq2
        simp [aqiTips, hq1, hq3]
    have hwd : windTips wind_speed = [] := by
      cases wind_speed with
      | none => rfl
      | some w =>
        simp [windTips, h9 w rfl]
    simp only [eco_tips]
    rw [ht, hw, ha, hwd]
    simp

/-- Witness for C2 at temperature 16, weather code 40, AQI 100, wind speed 5:
no rule fires and the result is exactly the fallback tip. -/
theorem eco_tips_nonempty_and_fallback_witness :
    eco_tips 16 40 (.val 100) (some 5) ≠ [] ∧
    eco_tips 16 40 (.val 100) (some 5) = [fallbackTip] := by
  obtain ⟨h1, h2⟩ := eco_tips_nonempty_and_fallback 16 40 (.val 100) (some 5)
  refine ⟨h1, h2 (by norm_num) (by norm_num) (by norm_num) (by decide) (by decide)
    (by decide) (by decide) ?_ ?_⟩
  · intro q hq
    cases hq
    norm_num
  · intro w hw
    cases hw
    norm_num

/-- C3: on temperature 20, weather code 61, AQI 40, wind 3, `eco_tips` returns
exactly the comfortable-temperature, rain and walk/cycle tips in that order,
with no fallback tip. -/
theorem eco_tips_example_20_61_40_3 :
    eco_tips 20 61 (.val 40) (some 3) = [comfortableTip, rainTip, walkCycleTip] := by
  decide

/-- Any member of the AQI block is a member of the full `eco_tips` output. -/
lemma mem_eco_tips_of_mem_aqiTips {x : String} {t : ℚ} {c : ℤ} {a : AqiInput}
    {w : Option ℚ} (hx : x ∈ aqiTips a) : x ∈ eco_tips t c a w := by
  have hL : x ∈ tempTips t ++ weatherTips c ++ aqiTips a ++ windTips w := by
    simp only [List.mem_append]
    tauto
  simp only [eco_tips]
  split
  · rename_i hnil
    rw [hnil] at hL
    simp at hL
  · exact hL

/-- A string absent from all four category blocks and different from the
fallback tip is absent from the full `eco_tips` output. -/
lemma not_mem_eco_tips {x : String} {t : ℚ} {c : ℤ} {a : AqiInput} {w : Option ℚ}
    (h1 : x ∉ tempTips t) (h2 : x ∉ weatherTips c) (h3 : x ∉ aqiTips a)
    (h4 : x ∉ windTips w) (h5 : x ≠ fallbackTip) : x ∉ eco_tips t c a w := by
  simp only [eco_tips]
  split
  · simpa using h5
  · simp only [List.mem_append]
    tauto

/-- None of the three AQI tip strings is produced by the temperature block. -/
lemma aqi_strings_not_in_tempTips (t : ℚ) :
    avoidVehiclesTip ∉ tempTips t ∧ wearMaskTip ∉ tempTips t ∧
      walkCycleTip ∉ tempTips t := by
  unfold tempTips
  split_ifs <;> exact ⟨by decide, by decide, by decide⟩

/-- None of the three AQI tip strings is produced by the weather-code block. -/
lemma aqi_strings_not_in_weatherTips (c : ℤ) :
    avoidVehiclesTip ∉ weatherTips c ∧ wearMaskTip ∉ weatherTips c ∧
      walkCycleTip ∉ weatherTips c := by
  unfold weatherTips
  split_ifs <;> exact ⟨by decide, by decide, by decide⟩

/-- None of the three AQI tip strings is produced by the wind block. -/
lemma aqi_strings_not_in_windTips (w : Option ℚ) :
    avoidVehiclesTip ∉ windTips w ∧ wearMaskTip ∉ windTips w ∧
      walkCycleTip ∉ windTips w := by
  cases w with
  | none => exact ⟨by decide, by decide, by decide⟩
  | some v =>
    simp only [windTips]
    split_ifs <;> exact ⟨by decide, by decide, by decide⟩

/-- C4: the AQI rules of `eco_tips`.  For a present numeric AQI above 150 the
output contains the avoid-vehicles and wear-mask tips and not the walk/cycle
tip; at most 50 it contains the walk/cycle tip and neither high-AQI tip;
between 50 (exclusive) and 150 (inclusive), or for absent/NaN AQI, no AQI tip
appears.  (AQI = 175 falls under the first case.) -/
theorem eco_tips_aqi_rules (t : ℚ) (c : ℤ) (w : Option ℚ) (q : ℚ) :
    (q > 150 →
      avoidVehiclesTip ∈ eco_tips t c (.val q) w ∧
      wearMaskTip ∈ eco_tips t c (.val q) w ∧
      walkCycleTip ∉ eco_tips t c (.val q) w) ∧
    (q ≤ 50 →
      walkCycleTip ∈ eco_tips t c (.val q) w ∧
      avoidVehiclesTip ∉ eco_tips t c (.val q) w ∧
      wearMaskTip ∉ eco_tips t c (.val q) w) ∧
    (50 < q → q ≤ 150 →
      avoidVehiclesTip ∉ eco_tips t c (.val q) w ∧
      wearMaskTip ∉ eco_tips t c (.val q) w ∧
      walkCycleTip ∉ eco_tips t c (.val q) w) ∧
    (avoidVehiclesTip ∉ eco_tips t c .none w ∧ wearMaskTip ∉ eco_tips t c .none w ∧
      walkCycleTip ∉ eco_tips t c .none w) ∧
    (avoidVehiclesTip ∉ eco_tips t c .nan w ∧ wearMaskTip ∉ eco_tips t c .nan w ∧
      walkCycleTip ∉ eco_tips t c .nan w) := by
  obtain ⟨ta, tm, tw⟩ := aqi_strings_not_in_tempTips t
  obtain ⟨wa, wm, ww⟩ := aqi_strings_not_in_weatherTips c
  obtain ⟨da, dm, dw⟩ := aqi_strings_not_in_windTips w
  refine ⟨?_, ?_, ?_, ?_, ?_⟩
  · intro hq
    have haq : aqiTips (.val q) = [avoidVehiclesTip, wearMaskTip] := by
      simp [aqiTips, hq]
    refine ⟨?_, ?_, ?_⟩
    · exact mem_eco_tips_of_mem_aqiTips (by rw [haq]; simp)
    · exact mem_eco_tips_of_mem_aqiTips (by rw [haq]; simp)
    · exact not_mem_eco_tips tw ww (by rw [haq]; decide) dw (by decide)
  · intro hq
    have haq : aqiTips (.val q) = [walkCycleTip] := by
      have : ¬ q > 150 := by linarith
      simp [aqiTips, hq, this]
    refine ⟨?_, ?_, ?_⟩
    · exact mem_eco_tips_of_mem_aqiTips (by rw [haq]; simp)
    · exact not_mem_eco_tips ta wa (by rw [haq]; decide) da (by decide)
    · exact not_mem_eco_tips tm wm (by rw [haq]; decide) dm (by decide)
  · intro hq1 hq2
    have haq : aqiTips (.val q) = [] := by
      have g1 : ¬ q > 150 := by linarith
      have g2 : ¬ q ≤ 50 := by linarith
      simp [aqiTips, g1, g2]
    exact ⟨not_mem_eco_tips ta wa (by rw [haq]; decide) da (by decide),
      not_mem_eco_tips tm wm (by rw [haq]; decide) dm (by decide),
      not_mem_eco_tips tw ww (by rw [haq]; decide) dw (by decide)⟩
  · exact ⟨not_mem_eco_tips ta wa (by decide) da (by decide),
      not_mem_eco_tips tm wm (by decide) dm (by decide),
      not_mem_eco_tips tw ww (by decide) dw (by decide)⟩
  · exact ⟨not_mem_eco_tips ta wa (by decide) da (by decide),
      not_mem_eco_tips tm wm (by decide) dm (by decide),
      not_mem_eco_tips tw ww (by decide) dw (by decide)⟩

/-- Witness for C4 at AQI 175 (temperature 20, weather code 10, wind absent):
both high-AQI tips appear and the walk/cycle tip does not. -/
theorem eco_tips_aqi_rules_witness :
    avoidVehiclesTip ∈ eco_tips 20 10 (.val 175) Option.none ∧
    wearMaskTip ∈ eco_tips 20 10 (.val 175) Option.none ∧
    walkCycleTip ∉ eco_tips 20 10 (.val 175) Option.none := by
  exact (eco_tips_aqi_rules 20 10 Option.none 175).1 (by norm_num)

/-! ## Classifier: `helpers.pollutant_summary` (src/helpers.py lines 87-107) -/

/-- The five-pollutant mapping handed to `pollutant_summary` and built by
`latest_aqi`; a field is `Option.none` when the key is absent or its value is
`None`. -/
structure Pollutants : Type where
  pm2_5 : Option ℚ
  pm10 : Option ℚ
  ozone : Option ℚ
  nitrogen_dioxide : Option ℚ
  carbon_monoxide : Option ℚ
deriving DecidableEq, Repr

/-- The mapping with every pollutant absent, also standing for the empty dict
`{}` returned by `latest_aqi` when there is no hourly data. -/
def emptyPollutants : Pollutants :=
  ⟨Option.none, Option.none, Option.none, Option.none, Option.none⟩

/-- One-decimal fixed-point rendering of a value, modelling the Python format
`f"{v:.1f}"` over `ℚ` (round to the nearest tenth). -/
def fmt1 (q : ℚ) : String :=
  let n : ℤ := round (q * 10)
  (if n < 0 then "-" else "") ++ toString (n.natAbs / 10) ++ "." ++ toString (n.natAbs % 10)

/-- The `lines` list built by `pollutant_summary` (src/helpers.py lines 89-105):
one formatted line per present pollutant, appended in the fixed source order
PM2.5, PM10, ozone, NO2, CO. -/
def pollutant_lines (p : Pollutants) : List String :=
  (match p.pm2_5 with
   | some v => ["PM2.5: " ++ fmt1 v ++ " µg/m³"]
   | Option.none => []) ++
  (match p.pm10 with
   | some v => ["PM10: " ++ fmt1 v ++ " µg/m³"]
   | Option.none => []) ++
  (match p.ozone with
   | some v => ["O₃ (ozone): " ++ fmt1 v ++ " µg/m³"]
   | Option.none => []) ++
  (match p.nitrogen_dioxide with
   | some v => ["NO₂: " ++ fmt1 v ++ " µg/m³"]
   | Option.none => []) ++
  (match p.carbon_monoxide with
   | some v => ["CO: " ++ fmt1 v ++ " µg/m³"]
   | Option.none => [])

/-- Embeds `helpers.pollutant_summary` (src/helpers.py lines 87-107):
`"\n".join(lines) if lines else "Pollutant data not available."`. -/
def pollutant_summary (p : Pollutants) : String :=
  let lines := pollutant_lines p
  if lines = [] then "Pollutant data not available." else String.intercalate "\n" lines

/-- Spec-side rendering of one pollutant line, `name: value unit`. -/
def pollutantLine (label : String) (v : ℚ) : String :=
  label ++ fmt1 v ++ " µg/m³"

/-- Spec-side line list (spec §4.2 `summarizePollutants`): the present
pollutants of the fixed order PM2.5, PM10, ozone, NO2, CO, each rendered as one
line, absent ones omitted. -/
def presentLines (p : Pollutants) : List String :=
  ([("PM2.5: ", p.pm2_5), ("PM10: ", p.pm10), ("O₃ (ozone): ", p.ozone),
    ("NO₂: ", p.nitrogen_dioxide), ("CO: ", p.carbon_monoxide)]).filterMap
    (fun nv => nv.2.map (pollutantLine nv.1))

/-- Spec-side count of present pollutants. -/
def numPresent (p : Pollutants) : ℕ :=
  ([p.pm2_5, p.pm10, p.ozone, p.nitrogen_dioxide, p.carbon_monoxide]).countP Option.isSome

/-- C5: `pollutant_summary` emits exactly one line per present pollutant, in
the fixed order PM2.5, PM10, ozone, NO2, CO with absent ones omitted, and when
all five pollutants are absent it returns the fixed non-empty "not available"
sentinel string. -/
theorem pollutant_summary_ordered_lines (p : Pollutants) :
    pollutant_lines p = presentLines p ∧
    (pollutant_lines p).length = numPresent p ∧
    pollutant_summary p =
      (if p.pm2_5 = Option.none ∧ p.pm10 = Option.none ∧ p.ozone = Option.none ∧
          p.nitrogen_dioxide = Option.none ∧ p.carbon_monoxide = Option.none
       then "Pollutant data not available."
       else String.intercalate "\n" (presentLines p)) ∧
    "Pollutant data not available." ≠ "" := by
  refine ⟨?_, ?_, ?_, by decide⟩ <;>
  · obtain ⟨a, b, c, d, e⟩ := p
    cases a <;> cases b <;> cases c <;> cases d <;> cases e <;>
      simp [pollutant_lines, presentLines, numPresent, pollutant_summary, pollutantLine]

/-! ## RecordLogger: `helpers.save_record_to_excel` (src/helpers.py lines 110-120)

The spreadsheet file is `Option (List α)`: `Option.none` when the file does not
exist, `some rows` for a file holding `rows` in order.  A row is abstract; it
carries its own column layout, which `pd.concat` preserves for prior rows. -/

/-- Embeds the body of `helpers.save_record_to_excel` (src/helpers.py lines
112-118): if the file exists, read it, append the record as the last row and
write back; otherwise create the file with only the record.  (The exception
handler around this body is modelled in the query flow below.) -/
def save_record_to_excel {α : Type} (record : α) (file : Option (List α)) :
    Option (List α) :=
  match file with
  | some df_existing => some (df_existing ++ [record])
  | Option.none => some [record]

/-- N successive calls of `save_record_to_excel`, threading the file state. -/
def saveAll {α : Type} (records : List α) (file : Option (List α)) :
    Option (List α) :=
  records.foldl (fun f r => save_record_to_excel r f) file

/-- Appending a batch to an existing file concatenates it after the prior rows. -/
lemma saveAll_some {α : Type} (records rows : List α) :
    saveAll records (some rows) = some (rows ++ records) := by
  induction records generalizing rows with
  | nil => simp [saveAll]
  | cons r rs ih =>
    have hstep : saveAll (r :: rs) (some rows) = saveAll rs (some (rows ++ [r])) := rfl
    rw [hstep, ih]
    simp

/-- C6: starting from an absent file, appending N ≥ 1 records one at a time
yields a file holding exactly those N rows in call order (so row 1 is the first
record); each single append on an existing file keeps all prior rows in place
and puts the new record last, and an append on an absent file creates the file
with only that record. -/
theorem save_record_appends_in_order {α : Type} (records : List α)
    (h : records ≠ []) :
    saveAll records Option.none = some records ∧
    (∀ (rows : List α) (r : α), save_record_to_excel r (some rows) = some (rows ++ [r])) ∧
    (∀ r : α, save_record_to_excel r (Option.none : Option (List α)) = some [r]) := by
  refine ⟨?_, fun rows r => rfl, fun r => rfl⟩
  cases records with
  | nil => exact absurd rfl h
  | cons r rs =>
    have hstep : saveAll (r :: rs) (Option.none : Option (List α)) =
        saveAll rs (some [r]) := rfl
    rw [hstep, saveAll_some]
    simp

/-- Witness for C6 with the three records 1, 2, 3 over ℕ. -/
theorem save_record_appends_in_order_witness :
    saveAll [1, 2, 3] (Option.none : Option (List ℕ)) = some [1, 2, 3] ∧
    save_record_to_excel 3 (some [1, 2]) = some [1, 2, 3] ∧
    save_record_to_excel (1 : ℕ) Option.none = some [1] := by
  obtain ⟨h1, h2, h3⟩ := save_record_appends_in_order [1, 2, 3] (by decide)
  exact ⟨h1, h2 [1, 2] 3, h3 1⟩

/-! ## Orchestrator: unit conversion (src/app.py lines 78-83 and 182-186) -/

/-- Embeds the current-temperature display conversion (src/app.py lines 78-83):
`temp = temp_c * 9/5 + 32` when Fahrenheit is selected and the value is
present, otherwise the value unchanged. -/
def displayTemp (units : String) (temp_c : Option ℚ) : Option ℚ :=
  match units, temp_c with
  | "Fahrenheit", some c => some (c * 9 / 5 + 32)
  | _, t => t

/-- Embeds the daily maximum-temperature extraction and conversion (src/app.py
lines 178 and 182-184): take `tmax[i]` if in range else `None`, then apply
`* 9/5 + 32` to a present value when Fahrenheit is selected. -/
def dailyDisplayMax (units : String) (tmax : List ℚ) (i : ℕ) : Option ℚ :=
  let d_tmax := if i < tmax.length then tmax.get? i else Option.none
  match units, d_tmax with
  | "Fahrenheit", some c => some (c * 9 / 5 + 32)
  | _, d => d

/-- Embeds the daily minimum-temperature extraction and conversion (src/app.py
lines 179 and 182, 185-186), identical in form to the maximum. -/
def dailyDisplayMin (units : String) (tmin : List ℚ) (i : ℕ) : Option ℚ :=
  let d_tmin := if i < tmin.length then tmin.get? i else Option.none
  match units, d_tmin with
  | "Fahrenheit", some c => some (c * 9 / 5 + 32)
  | _, d => d

/-- Spec-side conversion formula `f = c * 9/5 + 32`. -/
def celsiusToF (c : ℚ) : ℚ :=
  c * 9 / 5 + 32

/-- Out-of-range guard folds into `List.get?`. -/
lemma guarded_get_eq_get? (l : List ℚ) (i : ℕ) :
    (if i < l.length then l.get? i else Option.none) = l.get? i := by
  split
  · rfl
  · exact (List.get?_eq_none.mpr (by omega)).symm

/-- C8: when Fahrenheit is requested, the same formula `f = c * 9/5 + 32` is
applied to the current temperature and to every daily minimum and maximum
temperature (and a present value stays unchanged under Celsius); in particular
a current temperature of 32.5 °C displays as 90.5 °F. -/
theorem fahrenheit_conversion_uniform (t : Option ℚ) (tmax tmin : List ℚ) (i : ℕ) :
    displayTemp "Fahrenheit" t = t.map celsiusToF ∧
    dailyDisplayMax "Fahrenheit" tmax i = (tmax.get? i).map celsiusToF ∧
    dailyDisplayMin "Fahrenheit" tmin i = (tmin.get? i).map celsiusToF ∧
    displayTemp "Celsius" t = t ∧
    celsiusToF 32.5 = 90.5 ∧
    displayTemp "Fahrenheit" (some 32.5) = some 90.5 := by
  refine ⟨?_, ?_, ?_, ?_, by norm_num [celsiusToF], by norm_num [displayTemp]⟩
  · cases t <;> rfl
  · simp only [dailyDisplayMax, guarded_get_eq_get?]
    cases tmax.get? i <;> rfl
  · simp only [dailyDisplayMin, guarded_get_eq_get?]
    cases tmin.get? i <;> rfl
  · cases t <;> rfl

/-! ## WeatherClient extraction: `services.latest_aqi` (src/services.py lines 65-92) -/

/-- The `hourly` block of an air-quality response: each series may be missing
(`Option.none`, the dict has no such key), mirroring `hourly.get(key)`. -/
structure Hourly : Type where
  time : Option (List String)
  us_aqi : Option (List ℚ)
  pm2_5 : Option (List ℚ)
  pm10 : Option (List ℚ)
  ozone : Option (List ℚ)
  nitrogen_dioxide : Option (List ℚ)
  carbon_monoxide : Option (List ℚ)
deriving Repr

/-- The empty `hourly` dict `{}`, the default of `aq_data.get("hourly", {})`. -/
def emptyHourly : Hourly :=
  ⟨Option.none, Option.none, Option.none, Option.none, Option.none, Option.none,
    Option.none⟩

/-- Embeds `services._safe_get` (src/services.py lines 88-92): `None` when the
series is missing, empty (both falsy in `not arr`) or shorter than `idx + 1`,
else its element at `idx`. -/
def safe_get (arr : Option (List ℚ)) (idx : ℕ) : Option ℚ :=
  match arr with
  | Option.none => Option.none
  | some a => if a = [] ∨ a.length ≤ idx then Option.none else a.get? idx

/-- Embeds `services.latest_aqi` (src/services.py lines 65-85): an absent or
empty time series yields `(None, {})`; otherwise the US AQI value (guarded by
`idx < len(aqi_values)`) and the five pollutants are read at the last time
index.  The argument is the `hourly` block of `aq_data`, `Option.none` when
the response has no `hourly` key. -/
def latest_aqi (aq_hourly : Option Hourly) : Option ℚ × Pollutants :=
  let hourly := aq_hourly.getD emptyHourly
  let times := hourly.time.getD []
  if times = [] then (Option.none, emptyPollutants)
  else
    let idx := times.length - 1
    let aqi_values := hourly.us_aqi.getD []
    let aqi_val := if idx < aqi_values.length then aqi_values.get? idx else Option.none
    (aqi_val,
      ⟨safe_get hourly.pm2_5 idx, safe_get hourly.pm10 idx, safe_get hourly.ozone idx,
        safe_get hourly.nitrogen_dioxide idx, safe_get hourly.carbon_monoxide idx⟩)

/-- `_safe_get` is exactly an optional-list lookup: its falsy and length guards
coincide with `List.get?` on the series (with a missing series read as `[]`). -/
lemma safe_get_eq_get? (arr : Option (List ℚ)) (idx : ℕ) :
    safe_get arr idx = (arr.getD []).get? idx := by
  cases arr with
  | none => simp [safe_get]
  | some a =>
    simp only [safe_get, Option.getD_some]
    split
    · rename_i h
      rcases h with h | h
      · simp [h]
      · exact (List.get?_eq_none.mpr h).symm
    · rfl

/-- C9: for a time series of length n > 0, `latest_aqi` reads the US AQI value
and every pollutant series at index n - 1, yielding `None` for any series
shorter than n (including a missing one) instead of failing; for an empty or
missing time series it yields `(None, {})`.  The extraction is pure index
arithmetic: no sorting or chronological check appears. -/
theorem latest_aqi_reads_last_index (h : Hourly)
    (hne : h.time.getD [] ≠ []) :
    (latest_aqi (some h)).1 = (h.us_aqi.getD []).get? ((h.time.getD []).length - 1) ∧
    (latest_aqi (some h)).2.pm2_5 = (h.pm2_5.getD []).get? ((h.time.getD []).length - 1) ∧
    (latest_aqi (some h)).2.pm10 = (h.pm10.getD []).get? ((h.time.getD []).length - 1) ∧
    (latest_aqi (some h)).2.ozone = (h.ozone.getD []).get? ((h.time.getD []).length - 1) ∧
    (latest_aqi (some h)).2.nitrogen_dioxide =
      (h.nitrogen_dioxide.getD []).get? ((h.time.getD []).length - 1) ∧
    (latest_aqi (some h)).2.carbon_monoxide =
      (h.carbon_monoxide.getD []).get? ((h.time.getD []).length - 1) ∧
    ((h.us_aqi.getD []).length < (h.time.getD []).length →
      (latest_aqi (some h)).1 = Option.none) ∧
    (∀ h' : Hourly, h'.time.getD [] = [] →
      latest_aqi (some h') = (Option.none, emptyPollutants)) ∧
    latest_aqi Option.none = (Option.none, emptyPollutants) := by
  have hval : (latest_aqi (some h)).1 =
      (h.us_aqi.getD []).get? ((h.time.getD []).length - 1) := by
    simp only [latest_aqi, Option.getD_some, if_neg hne]
    split
    · rfl
    · rename_i hlt
      exact (List.get?_eq_none.mpr (by omega)).symm
  refine ⟨hval, ?_, ?_, ?_, ?_, ?_, ?_, ?_, rfl⟩
  · simp only [latest_aqi, Option.getD_some, if_neg hne, safe_get_eq_get?]
  · simp only [latest_aqi, Option.getD_some, if_neg hne, safe_get_eq_get?]
  · simp only [latest_aqi, Option.getD_some, if_neg hne, safe_get_eq_get?]
  · simp only [latest_aqi, Option.getD_some, if_neg hne, safe_get_eq_get?]
  · simp only [latest_aqi, Option.getD_some, if_neg hne, safe_get_eq_get?]
  · intro hlen
    rw [hval]
    exact List.get?_eq_none.mpr (by omega)
  · intro h' hh'
    simp [latest_aqi, hh']

/-- Witness for C9: two hourly samples, a US AQI series of matching length, a
PM2.5 series that is one sample short, and the other series missing; the
extraction takes index 1 and degrades the short and missing series to `None`. -/
theorem latest_aqi_reads_last_index_witness :
    (latest_aqi (some ⟨some ["2024-01-01T00:00", "2024-01-01T01:00"],
        some [17, 23], some [4], Option.none, Option.none, Option.none,
        Option.none⟩)).1 = some 23 ∧
    (latest_aqi (some ⟨some ["2024-01-01T00:00", "2024-01-01T01:00"],
        some [17, 23], some [4], Option.none, Option.none, Option.none,
        Option.none⟩)).2.pm2_5 = Option.none := by
  obtain ⟨h1, h2, -⟩ := latest_aqi_reads_last_index
    ⟨some ["2024-01-01T00:00", "2024-01-01T01:00"], some [17, 23], some [4],
      Option.none, Option.none, Option.none, Option.none⟩ (by decide)
  exact ⟨by rw [h1]; rfl, by rw [h2]; rfl⟩

/-! ## Orchestrator: the main query flow of src/app.py -/

/-- The `current_weather` block of a forecast response (src/app.py lines
69-74); each field is `Option.none` when absent. -/
structure CurrentWeather : Type where
  temperature : Option ℚ
  windspeed : Option ℚ
  weathercode : Option ℤ
deriving Repr

/-- A forecast response, restricted to the fields the pipeline logic consumes
(the daily arrays feed only the display loop, handled by `dailyDisplayMax` and
`dailyDisplayMin` above). -/
structure Forecast : Type where
  current_weather : CurrentWeather
deriving Repr

/-- A geocoding match (src/services.py lines 26-31). -/
structure Location : Type where
  name : String
  country : String
  latitude : ℚ
  longitude : ℚ
deriving Repr

/-- The AQI value handed from `latest_aqi` to the tip engine; the model carries
no NaN values inside series, so a present value is numeric. -/
def toAqiInput : Option ℚ → AqiInput
  | some q => .val q
  | Option.none => .none

/-- Embeds the `eco_tips` call of the app (src/app.py lines 198-201): an absent
temperature defaults to 25.0, an absent weather code to 1, an absent wind speed
to 0.0; the wind argument is therefore always present at the call. -/
def appTips (current : CurrentWeather) (aqi_val : AqiInput) : List String :=
  eco_tips (current.temperature.getD 25) (current.weathercode.getD 1) aqi_val
    (some (current.windspeed.getD 0))

/-- `eco_tips` never returns the empty list: the fallback branch guards it. -/
lemma eco_tips_ne_nil (t : ℚ) (c : ℤ) (a : AqiInput) (w : Option ℚ) :
    eco_tips t c a w ≠ [] := by
  simp only [eco_tips]
  split
  · simp
  · assumption

/-- Any member of the weather-code block is a member of the full output. -/
lemma mem_eco_tips_of_mem_weatherTips {x : String} {t : ℚ} {c : ℤ} {a : AqiInput}
    {w : Option ℚ} (hx : x ∈ weatherTips c) : x ∈ eco_tips t c a w := by
  have hL : x ∈ tempTips t ++ weatherTips c ++ aqiTips a ++ windTips w := by
    simp only [List.mem_append]
    tauto
  simp only [eco_tips]
  split
  · rename_i hnil
    rw [hnil] at hL
    simp at hL
  · exact hL

/-- C10: a query whose current-weather block is entirely absent still produces
tips — the call substitutes the fixed defaults temperature 25.0, weather code 1
and wind speed 0.0, and the default weather code 1 puts the clear-sky and
daylight tips in the output; in general the call always applies exactly these
three per-field defaults. -/
theorem app_tips_fixed_defaults (a : AqiInput) (cur : CurrentWeather) :
    appTips ⟨Option.none, Option.none, Option.none⟩ a = eco_tips 25 1 a (some 0) ∧
    clearSkyTip ∈ appTips ⟨Option.none, Option.none, Option.none⟩ a ∧
    daylightTip ∈ appTips ⟨Option.none, Option.none, Option.none⟩ a ∧
    appTips ⟨Option.none, Option.none, Option.none⟩ a ≠ [] ∧
    appTips cur a =
      eco_tips (cur.temperature.getD 25) (cur.weathercode.getD 1) a
        (some (cur.windspeed.getD 0)) := by
  have hw : weatherTips 1 = [clearSkyTip, daylightTip] := by decide
  refine ⟨rfl, ?_, ?_, eco_tips_ne_nil 25 1 a (some 0), rfl⟩
  · exact mem_eco_tips_of_mem_weatherTips (by simp [hw])
  · exact mem_eco_tips_of_mem_weatherTips (by simp [hw])

/-- Outcome of one press of the query button (src/app.py lines 47-105 and
196-203): either the query aborts with a fatal error message (`st.error`
followed by `st.stop`), or it completes, carrying the values that reach the
display and tip stages and whether the spreadsheet write emitted its warning. -/
inductive QueryOutcome : Type
  | fatal (msg : String)
  | completed (aqi_val : Option ℚ) (pollutants : Pollutants) (saveWarned : Bool)
      (tips : List String)
deriving Repr

/-- Embeds the main query flow of src/app.py (lines 47-105 and 196-203) over
the outcomes of its effectful steps: `geo` is the geocoding call
(`Except.error` when `geocode_city` raises, `Except.ok Option.none` when the
provider returns no match), `fc` the forecast call, `aq` the air-quality call
(yielding the `hourly` block), and `saveOk` whether the body of
`save_record_to_excel` succeeded — its own handler (src/helpers.py lines
119-120) turns a failure into a warning.  A geocoding or forecast failure
stops the script before any later step; an air-quality failure is caught and
replaced by `(None, {})`; the save step never aborts. -/
def runQuery (geo : Except String (Option Location)) (fc : Except String Forecast)
    (aq : Except String (Option Hourly)) (saveOk : Bool) : QueryOutcome :=
  match geo with
  | .error e => .fatal ("Error geocoding city: " ++ e)
  | .ok Option.none =>
    .fatal "Could not find this city. Try a different spelling or include country."
  | .ok (some _location) =>
    match fc with
    | .error e => .fatal ("Error fetching weather data: " ++ e)
    | .ok weather_data =>
      let current := weather_data.current_weather
      let aqp : Option ℚ × Pollutants :=
        match aq with
        | .error _ => (Option.none, emptyPollutants)
        | .ok aq_hourly => latest_aqi aq_hourly
      .completed aqp.1 aqp.2 (!saveOk) (appTips current (toAqiInput aqp.1))

/-- C7: error propagation of one query.  A geocoding failure (raised or no
match) and a forecast failure abort the query with a fatal error, and the
result does not depend on anything after the failing step; an air-quality
failure is caught and replaced by the unavailable state `(None, {})` with the
query still completing; the spreadsheet write never aborts the query — its
failure only sets the warning flag of a completed query. -/
theorem query_error_propagation :
    (∀ (e : String) (fc fc' : Except String Forecast)
        (aq aq' : Except String (Option Hourly)) (s s' : Bool),
      runQuery (.error e) fc aq s = runQuery (.error e) fc' aq' s' ∧
      ∃ m, runQuery (.error e) fc aq s = .fatal m) ∧
    (∀ (fc fc' : Except String Forecast) (aq aq' : Except String (Option Hourly))
        (s s' : Bool),
      runQuery (.ok Option.none) fc aq s = runQuery (.ok Option.none) fc' aq' s' ∧
      ∃ m, runQuery (.ok Option.none) fc aq s = .fatal m) ∧
    (∀ (loc : Location) (e : String) (aq aq' : Except String (Option Hourly))
        (s s' : Bool),
      runQuery (.ok (some loc)) (.error e) aq s =
        runQuery (.ok (some loc)) (.error e) aq' s' ∧
      ∃ m, runQuery (.ok (some loc)) (.error e) aq s = .fatal m) ∧
    (∀ (loc : Location) (fc : Forecast) (e : String) (s : Bool),
      runQuery (.ok (some loc)) (.ok fc) (.error e) s =
        .completed Option.none emptyPollutants (!s)
          (appTips fc.current_weather (toAqiInput Option.none))) ∧
    (∀ (loc : Location) (fc : Forecast) (aq : Except String (Option Hourly))
        (s : Bool),
      ∃ a p t, runQuery (.ok (some loc)) (.ok fc) aq s = .completed a p (!s) t) := by
  refine ⟨fun e fc fc' aq aq' s s' => ⟨rfl, _, rfl⟩,
    fun fc fc' aq aq' s s' => ⟨rfl, _, rfl⟩,
    fun loc e aq aq' s s' => ⟨rfl, _, rfl⟩,
    fun loc fc e s => rfl,
    fun loc fc aq s => ?_⟩
  cases aq with
  | error e => exact ⟨Option.none, emptyPollutants, _, rfl⟩
  | ok aq_hourly =>
    exact ⟨(latest_aqi aq_hourly).1, (latest_aqi aq_hourly).2, _, rfl⟩
